import Mathlib

/-!
Shallow embedding of the `sf-backtester` orchestration core
(`src/sf_backtester/{config,cli,slurm,runner}.py` and
`src/sf_backtester/scripts/mvo_worker.py`) together with theorems settling
the specification claims.

Modelling conventions:
* Python `float` values (the risk parameter `gamma`) are modelled as `ℚ`;
  the claims only use `gamma` through its string rendering `f"{gamma}"`,
  modelled by the fixed function `gammaRepr`.
* Python strings are Lean `String`s; f-string interpolation is `++`.
* Filesystem and process effects are modelled by explicit traces
  (lines printed, number of scheduler invocations, whether the temporary
  script file remains) and `Except` for raised exceptions.
-/

namespace SfBacktester

/-- Embedding of `SlurmConfig` (`config.py`, lines 10-18): the nested SLURM
resource block. -/
structure SlurmConfig where
  n_cpus : Nat
  mem : String
  time : String
  mail_type : String
  max_concurrent_jobs : Nat
  deriving Repr, DecidableEq

/-- Embedding of `BacktestConfig` (`config.py`, lines 21-51) after
`__post_init__` has run: the derived fields `output_dir`/`logs_dir` are
always present (never `None`). -/
structure BacktestConfig where
  signal_name : String
  data_path : String
  gamma : ℚ
  project_root : String
  byu_email : String
  constraints : List String
  slurm : SlurmConfig
  output_dir : String
  logs_dir : String
  deriving Repr, DecidableEq

/-- Rendering of the float `gamma` into a path segment, modelling Python
`f"{self.gamma}"` (`config.py` line 45, `cli.py` line 49). -/
def gammaRepr (g : ℚ) : String := toString g

/-- Embedding of `BacktestConfig.__init__` followed by `__post_init__`
(`config.py`, lines 42-51): when `output_dir` (resp. `logs_dir`) is absent
it is derived as `f"{project_root}/weights/{signal_name}/{gamma}"`
(resp. `f"logs/{signal_name}/{gamma}"`). -/
def mkBacktestConfig (signal_name data_path : String) (gamma : ℚ)
    (project_root byu_email : String) (constraints : List String)
    (slurm : SlurmConfig) (output_dir logs_dir : Option String) :
    BacktestConfig where
  signal_name := signal_name
  data_path := data_path
  gamma := gamma
  project_root := project_root
  byu_email := byu_email
  constraints := constraints
  slurm := slurm
  output_dir :=
    output_dir.getD (project_root ++ "/weights/" ++ signal_name ++ "/" ++ gammaRepr gamma)
  logs_dir := logs_dir.getD ("logs/" ++ signal_name ++ "/" ++ gammaRepr gamma)

/-- Embedding of the `--gamma` override applied by `cli.py` `main`
(lines 45-51): set `gamma` and recompute both derived paths from the new
value.  The in-place mutation of `runner.config` is modelled as a pure
transformation returning the updated configuration value. -/
def applyGammaOverride (c : BacktestConfig) (g : ℚ) : BacktestConfig :=
  { c with
    gamma := g
    output_dir := c.project_root ++ "/weights/" ++ c.signal_name ++ "/" ++ gammaRepr g
    logs_dir := "logs/" ++ c.signal_name ++ "/" ++ gammaRepr g }

/-- Embedding of the dictionary written by `BacktestConfig.to_yaml`
(`config.py`, lines 60-80) / read back by `from_yaml` (lines 53-58): the
persisted YAML document as structured data (YAML encoding/parsing mechanics
are excluded by the spec, so the document is kept abstract).  In a document
loaded from disk the derived paths may be absent, hence `Option`. -/
structure YamlDoc where
  signal_name : String
  data_path : String
  gamma : ℚ
  project_root : String
  byu_email : String
  constraints : List String
  slurm : SlurmConfig
  output_dir : Option String
  logs_dir : Option String
  deriving Repr, DecidableEq

/-- Embedding of `BacktestConfig.to_yaml` (`config.py`, lines 60-80): every
field, the nested `slurm` block included, is written out; the derived paths
are written as present values. -/
def to_yaml (c : BacktestConfig) : YamlDoc where
  signal_name := c.signal_name
  data_path := c.data_path
  gamma := c.gamma
  project_root := c.project_root
  byu_email := c.byu_email
  constraints := c.constraints
  slurm := c.slurm
  output_dir := some c.output_dir
  logs_dir := some c.logs_dir

/-- Embedding of `BacktestConfig.from_yaml` (`config.py`, lines 53-58):
construct the dataclass from the loaded document, running
`__post_init__`. -/
def from_yaml (d : YamlDoc) : BacktestConfig :=
  mkBacktestConfig d.signal_name d.data_path d.gamma d.project_root d.byu_email
    d.constraints d.slurm d.output_dir d.logs_dir

/-- Python `" ".join(xs)`. -/
def joinSpace (xs : List String) : String := String.intercalate " " xs

/-- Python `" ".join(str(y) for y in years)` (`slurm.py`, line 24): the
partition keys rendered as a space-separated literal list, in list order. -/
def yearsLiteral (years : List Int) : String := joinSpace (years.map toString)

/-- Modelled stand-in for `get_worker_script_path()` (`slurm.py`, lines
12-18), which resolves the bundled `mvo_worker.py` file via `importlib`
(filesystem interaction outside the embedding).  No claim depends on its
value; it is only interpolated into the invocation line. -/
def workerScriptPath : String := "/opt/sf_backtester/scripts/mvo_worker.py"

/-- The out-of-range runtime guard embedded verbatim in the generated
script (`slurm.py`, lines 52-55). -/
def taskGuardText : String :=
  "if [ $SLURM_ARRAY_TASK_ID -ge $num_years ]; then\n    echo \"Task ID $SLURM_ARRAY_TASK_ID is out of range (max $((num_years-1))).\"\n    exit 1\nfi"

/-- Embedding of `generate_sbatch_script` (`slurm.py`, lines 21-69): the
f-string rendered as a concatenation, in source order, of its literal
fragments and interpolated values.  `num_years - 1` is computed in `Int`
because Python subtraction does not truncate at zero. -/
def generate_sbatch_script (config : BacktestConfig) (years : List Int) : String :=
  "#!/bin/bash\n#SBATCH --job-name=" ++ config.signal_name
    ++ "_backtest\n#SBATCH --output=" ++ config.logs_dir
    ++ "/backtest_%A_%a.out\n#SBATCH --error=" ++ config.logs_dir
    ++ "/backtest_%A_%a.err\n"
    ++ "#SBATCH --array=0-" ++ toString ((years.length : Int) - 1) ++ "%"
    ++ toString config.slurm.max_concurrent_jobs
    ++ "\n#SBATCH --cpus-per-task=" ++ toString config.slurm.n_cpus
    ++ "\n#SBATCH --mem=" ++ config.slurm.mem
    ++ "\n#SBATCH --time=" ++ config.slurm.time
    ++ "\n#SBATCH --mail-user=" ++ config.byu_email
    ++ "\n#SBATCH --mail-type=" ++ config.slurm.mail_type
    ++ "\n\nexport RAY_ACCEL_ENV_VAR_OVERRIDE_ON_ZERO=0\n\nDATA_PATH=\""
    ++ config.data_path
    ++ "\"\nOUTPUT_DIR=\"" ++ config.output_dir
    ++ "\"\nGAMMA=\"" ++ gammaRepr config.gamma
    ++ "\"\nN_CPUS=\"" ++ toString config.slurm.n_cpus
    ++ "\"\nCONSTRAINTS=\"" ++ joinSpace config.constraints
    ++ "\"\n\n# Years to process\n"
    ++ "years=(" ++ yearsLiteral years ++ ")"
    ++ "\n\nnum_years=$\x7b#years[@]\x7d\n\n"
    ++ taskGuardText
    ++ "\n\nyear=$\x7byears[$SLURM_ARRAY_TASK_ID]\x7d\n\nsource "
    ++ config.project_root
    ++ "/.venv/bin/activate\necho \"Running year=$year\"\nsrun python "
    ++ workerScriptPath
    ++ " \\\n    --data_path \"$DATA_PATH\" \\\n    --gamma \"$GAMMA\" \\\n    --year \"$year\" \\\n    --output_dir \"$OUTPUT_DIR\" \\\n    --n_cpus \"$N_CPUS\" \\\n    --constraints $CONSTRAINTS\n"

/-- The string `s` contains `mid` as a contiguous segment. -/
def containsSegment (s mid : String) : Prop := ∃ p q, s = p ++ (mid ++ q)

/-- C1: overriding the risk parameter `gamma` is a pure transformation in
which both derived paths are recomputed from the new value in the same
step: the overridden config's `output_dir` is
`projectRoot/weights/name/g`, its `logs_dir` is `logs/name/g`, and the
result coincides with a config freshly re-derived from the new `gamma`
(so no stale derived path remains). -/
theorem applyGammaOverride_recomputes_derived_paths (c : BacktestConfig) (g : ℚ) :
    (applyGammaOverride c g).output_dir
        = c.project_root ++ "/weights/" ++ c.signal_name ++ "/" ++ gammaRepr g
      ∧ (applyGammaOverride c g).logs_dir = "logs/" ++ c.signal_name ++ "/" ++ gammaRepr g
      ∧ (applyGammaOverride c g).gamma = g
      ∧ applyGammaOverride c g
        = mkBacktestConfig c.signal_name c.data_path g c.project_root c.byu_email
            c.constraints c.slurm none none := by
  refine ⟨rfl, rfl, rfl, ?_⟩
  simp [applyGammaOverride, mkBacktestConfig]

/-- C2: serialization is a lossless round-trip: for every config `cfg`,
`from_yaml (to_yaml cfg) = cfg`, the slurm resource block and the derived
`output_dir`/`logs_dir` fields included. -/
theorem load_save_roundtrip (c : BacktestConfig) : from_yaml (to_yaml c) = c := by
  cases c
  simp [from_yaml, to_yaml, mkBacktestConfig]

/-- Behaviour of the external scheduler command `sbatch` when invoked:
either the executable cannot be located (Python raises
`FileNotFoundError`) or it runs and finishes with an exit code, stdout and
stderr. -/
inductive SchedulerBehavior where
  | notFound
  | ran (exitCode : Nat) (stdout : String) (stderr : String)
  deriving Repr, DecidableEq

/-- Embedding of the `subprocess.CompletedProcess` value returned by
`subprocess.run` with `capture_output=True, text=True`. -/
structure CompletedProcess where
  returncode : Nat
  stdout : String
  stderr : String
  deriving Repr, DecidableEq

/-- The exceptions `submit_job` can raise (`slurm.py`, lines 94-100):
`subprocess.CalledProcessError` (from `check=True`; it carries the exit
code and the captured stderr) and `FileNotFoundError` (sbatch cannot be
located). -/
inductive SubmitError where
  | calledProcessError (returncode : Nat) (stderr : String)
  | fileNotFoundError
  deriving Repr, DecidableEq

/-- Observable effects of one `submit_job` call: the lines printed, how
many times the scheduler command was invoked, and whether the temporary
script file still exists when the call ends. -/
structure SubmitTrace where
  printed : List String
  schedulerCalls : Nat
  tempFileRemains : Bool
  deriving Repr, DecidableEq

/-- Python `"=" * 60` (`slurm.py`, lines 83-87). -/
def sepLine : String := String.mk (List.replicate 60 '=')

/-- Embedding of `submit_job` (`slurm.py`, lines 72-104).  The dry-run
branch prints the script between separator lines and returns `None`,
touching neither the filesystem nor the scheduler.  Otherwise the script
is written to a temporary file, `sbatch` is run on it with `check=True`
(non-zero exit raises `CalledProcessError` carrying the captured stderr;
a missing executable raises `FileNotFoundError`), and the `finally` block
unlinks the temporary file on every exit path, so `tempFileRemains` is
`false` in all cases. -/
def submit_job (sched : SchedulerBehavior) (script_content : String) (dry_run : Bool) :
    SubmitTrace × Except SubmitError (Option CompletedProcess) :=
  if dry_run then
    ({ printed := [sepLine, "DRY RUN - Would submit the following script:", sepLine,
         script_content, sepLine],
       schedulerCalls := 0, tempFileRemains := false },
     .ok none)
  else
    match sched with
    | .notFound =>
        ({ printed := [], schedulerCalls := 1, tempFileRemains := false },
         .error .fileNotFoundError)
    | .ran code out err =>
        if code = 0 then
          ({ printed := [], schedulerCalls := 1, tempFileRemains := false },
           .ok (some ⟨code, out, err⟩))
        else
          ({ printed := [], schedulerCalls := 1, tempFileRemains := false },
           .error (.calledProcessError code err))

/-- The task-index-to-partition mapping realised at runtime by the
generated script: `year=$\x7byears[$SLURM_ARRAY_TASK_ID]\x7d` indexes the
embedded literal array (`slurm.py`, line 57). -/
def arrayTaskMap (years : List Int) (i : Nat) : Option Int := years.get? i

/-- Outcome of running the body of the generated script as one array
task: either the script exits with a code before reaching the worker, or
the worker entrypoint is invoked with the resolved year. -/
inductive ScriptOutcome where
  | exited (code : Nat)
  | workerInvoked (year : Int)
  deriving Repr, DecidableEq

/-- Bash semantics of the generated script body (`slurm.py`, lines
50-67): `num_years` is the length of the embedded array; a task id
`>= num_years` hits the guard and exits with status 1; otherwise the
worker is invoked with `years[$SLURM_ARRAY_TASK_ID]`. -/
def runArrayTask (years : List Int) (taskId : Nat) : ScriptOutcome :=
  if years.length ≤ taskId then .exited 1
  else .workerInvoked (years.getD taskId 0)

/-- Example resource block used to instantiate hypotheses at concrete
inputs. -/
def exampleSlurm : SlurmConfig :=
  { n_cpus := 4, mem := "32G", time := "06:00:00", mail_type := "BEGIN,END,FAIL",
    max_concurrent_jobs := 1 }

/-- Example configuration used to instantiate hypotheses at concrete
inputs. -/
def exampleConfig : BacktestConfig :=
  mkBacktestConfig "alpha" "d.parquet" (1 / 2) "/home/alpha" "alpha@byu.edu"
    ["ZeroBeta", "ZeroInvestment"] exampleSlurm none none

/-- Example partition list (three years, sorted ascending). -/
def exampleYears : List Int := [2019, 2020, 2021]

/-- A value of the dataset's `date` column: a calendar date, of which
`get_years` inspects only the year. -/
structure Date where
  year : Int
  month : Nat
  day : Nat
  deriving Repr, DecidableEq

/-- Insert a year into an ascending duplicate-free list, keeping it
ascending and duplicate-free. -/
def insertYear (y : Int) : List Int → List Int
  | [] => [y]
  | x :: xs => if y < x then y :: x :: xs else if y = x then x :: xs else x :: insertYear y xs

/-- Ascending-sorted deduplication of a list of years. -/
def sortedUnique (l : List Int) : List Int := l.foldr insertYear []

/-- Embedding of `BacktestRunner.get_years` (`runner.py`, lines 52-68):
`data.select(pl.col("date").dt.year()).unique().sort("year").to_list()`,
i.e. the distinct calendar years of the date column as an
ascending-sorted list.  `unique().sort(...)` is characterised by being
sorted, duplicate-free and having the same members as the input;
`sortedUnique` computes exactly that list. -/
def get_years (dates : List Date) : List Int := sortedUnique (dates.map Date.year)

lemma mem_insertYear (a y : Int) (l : List Int) :
    a ∈ insertYear y l ↔ a = y ∨ a ∈ l := by
  induction l with
  | nil => simp [insertYear]
  | cons x xs ih =>
      by_cases h1 : y < x
      · simp [insertYear, h1]
      · by_cases h2 : y = x
        · subst h2
          have heq : insertYear y (y :: xs) = y :: xs := by simp [insertYear, h1]
          rw [heq]
          simp only [List.mem_cons]
          tauto
        · simp only [insertYear, if_neg h1, if_neg h2, List.mem_cons, ih]
          tauto

lemma sorted_insertYear (y : Int) {l : List Int} (h : l.Sorted (· < ·)) :
    (insertYear y l).Sorted (· < ·) := by
  induction l with
  | nil => simp [insertYear]
  | cons x xs ih =>
      rw [List.sorted_cons] at h
      by_cases h1 : y < x
      · simp only [insertYear, if_pos h1]
        rw [List.sorted_cons]
        refine ⟨?_, List.sorted_cons.mpr h⟩
        intro b hb
        rcases List.mem_cons.mp hb with rfl | hb2
        · exact h1
        · exact lt_trans h1 (h.1 b hb2)
      · by_cases h2 : y = x
        · simp only [insertYear, if_neg h1, if_pos h2]
          exact List.sorted_cons.mpr h
        · simp only [insertYear, if_neg h1, if_neg h2]
          rw [List.sorted_cons]
          constructor
          · intro b hb
            rcases (mem_insertYear b y xs).mp hb with rfl | hb2
            · omega
            · exact h.1 b hb2
          · exact ih h.2

lemma sortedUnique_sorted (l : List Int) : (sortedUnique l).Sorted (· < ·) := by
  induction l with
  | nil => simp [sortedUnique]
  | cons x xs ih =>
      simp only [sortedUnique, List.foldr_cons] at *
      exact sorted_insertYear x ih

lemma mem_sortedUnique (l : List Int) (a : Int) : a ∈ sortedUnique l ↔ a ∈ l := by
  induction l with
  | nil => simp [sortedUnique]
  | cons x xs ih =>
      simp only [sortedUnique, List.foldr_cons] at *
      rw [mem_insertYear]
      simp [ih]

/-- Example dataset date column spanning years 2019, 2021, 2019, 2020. -/
def exampleDates : List Date :=
  [⟨2019, 3, 1⟩, ⟨2021, 6, 15⟩, ⟨2019, 11, 30⟩, ⟨2020, 1, 2⟩]

/-- C7: for every dataset date column, `get_years` returns the distinct
calendar years sorted ascending with no duplicates and exactly the years
occurring in the column; in particular a dataset spanning years
2019, 2021, 2019, 2020 yields `[2019, 2020, 2021]`. -/
theorem get_years_sorted_unique (dates : List Date) :
    (get_years dates).Sorted (· < ·)
      ∧ (get_years dates).Nodup
      ∧ (∀ y, y ∈ get_years dates ↔ y ∈ dates.map Date.year)
      ∧ get_years exampleDates = [2019, 2020, 2021] := by
  refine ⟨sortedUnique_sorted _, (sortedUnique_sorted _).nodup, ?_, by decide⟩
  intro y
  exact mem_sortedUnique _ y

/-- The constraint objects the worker can instantiate
(`sfo.constraints.ZeroBeta`, `sfo.constraints.ZeroInvestment`), kept
opaque: only identity matters to the orchestration claims. -/
inductive Constraint where
  | zeroBeta
  | zeroInvestment
  deriving Repr, DecidableEq

/-- Embedding of `CONSTRAINT_REGISTRY` (`mvo_worker.py`, lines 14-18): the
fixed registry, in insertion order. -/
def CONSTRAINT_REGISTRY : List (String × Constraint) :=
  [("ZeroBeta", .zeroBeta), ("ZeroInvestment", .zeroInvestment)]

/-- Dictionary lookup `CONSTRAINT_REGISTRY[name]` (the instantiation
`(...)()` is the registered value itself in this embedding). -/
def registryLookup (name : String) : Option Constraint :=
  (CONSTRAINT_REGISTRY.find? (fun p => p.1 == name)).map Prod.snd

/-- Python `", ".join(CONSTRAINT_REGISTRY.keys())` (`mvo_worker.py`,
line 36): the full set of valid registry names. -/
def availableNames : String :=
  String.intercalate ", " (CONSTRAINT_REGISTRY.map Prod.fst)

/-- Embedding of `get_constraints` (`mvo_worker.py`, lines 21-39): resolve
each name in order; the first unrecognised name raises `KeyError` with a
message listing all valid names; otherwise one instantiated constraint is
appended per name. -/
def get_constraints : List String → Except String (List Constraint)
  | [] => .ok []
  | name :: rest =>
    match registryLookup name with
    | none => .error ("Unknown constraint \x27" ++ name ++ "\x27. Available: " ++ availableNames)
    | some c =>
      match get_constraints rest with
      | .ok cs => .ok (c :: cs)
      | .error e => .error e

lemma get_constraints_ok_of_all_known {names : List String}
    (h : ∀ n ∈ names, (registryLookup n).isSome) :
    get_constraints names = .ok (names.filterMap registryLookup) := by
  induction names with
  | nil => rfl
  | cons x xs ih =>
      obtain ⟨c, hc⟩ := Option.isSome_iff_exists.mp (h x (List.mem_cons_self x xs))
      have hrest := ih fun n hn => h n (List.mem_cons_of_mem x hn)
      simp [get_constraints, hc, hrest, List.filterMap_cons]

lemma filterMap_registryLookup_length {names : List String}
    (h : ∀ n ∈ names, (registryLookup n).isSome) :
    (names.filterMap registryLookup).length = names.length := by
  induction names with
  | nil => rfl
  | cons x xs ih =>
      obtain ⟨c, hc⟩ := Option.isSome_iff_exists.mp (h x (List.mem_cons_self x xs))
      have hrest := ih fun n hn => h n (List.mem_cons_of_mem x hn)
      simp [List.filterMap_cons, hc, hrest]

lemma get_constraints_error_contains_available {names : List String} {e : String}
    (h : get_constraints names = .error e) : containsSegment e availableNames := by
  induction names with
  | nil => simp [get_constraints] at h
  | cons x xs ih =>
      simp only [get_constraints] at h
      cases hx : registryLookup x with
      | none =>
          rw [hx] at h
          refine ⟨"Unknown constraint \x27" ++ x ++ "\x27. Available: ", "", ?_⟩
          cases h
          simp [String.append_assoc]
      | some c =>
          rw [hx] at h
          cases hrec : get_constraints xs with
          | ok cs => rw [hrec] at h; simp at h
          | error e2 =>
              rw [hrec] at h
              cases h
              exact ih hrec

lemma get_constraints_error_iff {names : List String} :
    (∃ n ∈ names, registryLookup n = none) ↔ ∃ e, get_constraints names = .error e := by
  induction names with
  | nil => simp [get_constraints]
  | cons x xs ih =>
      constructor
      · rintro ⟨n, hn, hnone⟩
        rcases List.mem_cons.mp hn with rfl | hxs
        · exact ⟨"Unknown constraint \x27" ++ n ++ "\x27. Available: " ++ availableNames,
            by simp [get_constraints, hnone]⟩
        · cases hx : registryLookup x with
          | none =>
              exact ⟨"Unknown constraint \x27" ++ x ++ "\x27. Available: " ++ availableNames,
                by simp [get_constraints, hx]⟩
          | some c =>
              obtain ⟨e, he⟩ := ih.mp ⟨n, hxs, hnone⟩
              exact ⟨e, by simp [get_constraints, hx, he]⟩
      · rintro ⟨e, he⟩
        simp only [get_constraints] at he
        cases hx : registryLookup x with
        | none => exact ⟨x, List.mem_cons_self x xs, hx⟩
        | some c =>
            rw [hx] at he
            cases hrec : get_constraints xs with
            | ok cs => rw [hrec] at he; simp at he
            | error e2 =>
                obtain ⟨n, hn, h0⟩ := ih.mpr ⟨e2, hrec⟩
                exact ⟨n, List.mem_cons_of_mem x hn, h0⟩

/-- C9: constraint resolution returns one instantiated constraint per
name when every name is in the registry, fails with a message containing
the full set of valid registry names otherwise, and fails if and only if
some name is not in the registry (an unknown name is never silently
defaulted). -/
theorem get_constraints_total_or_lists_valid (names : List String) :
    ((∀ n ∈ names, (registryLookup n).isSome) →
        ∃ cs, get_constraints names = .ok cs ∧ cs.length = names.length)
      ∧ (∀ e, get_constraints names = .error e → containsSegment e availableNames)
      ∧ ((∃ n ∈ names, registryLookup n = none) ↔ ∃ e, get_constraints names = .error e) := by
  refine ⟨?_, ?_, get_constraints_error_iff⟩
  · intro h
    exact ⟨names.filterMap registryLookup, get_constraints_ok_of_all_known h,
      filterMap_registryLookup_length h⟩
  · intro e he
    exact get_constraints_error_contains_available he

/-- Witness for C9: both registry names resolve to one constraint each;
an unknown name fails. -/
theorem get_constraints_total_or_lists_valid_witness :
    (∃ cs, get_constraints ["ZeroBeta", "ZeroInvestment"] = .ok cs ∧ cs.length = 2)
      ∧ (∃ e, get_constraints ["ZeroBeta", "Bogus"] = .error e) :=
  ⟨(get_constraints_total_or_lists_valid ["ZeroBeta", "ZeroInvestment"]).1 (by decide),
    (get_constraints_total_or_lists_valid ["ZeroBeta", "Bogus"]).2.2.mp (by decide)⟩

/-- The exceptions `BacktestRunner.submit` can propagate: Python
`IndexError: list index out of range` (from `years[0]` on line 107 of
`runner.py`) or a submission failure from `submit_job`. -/
inductive RunnerError where
  | indexError
  | submitFailure (e : SubmitError)
  deriving Repr, DecidableEq

/-- Observable effects of one `BacktestRunner.submit` call: the scripts
rendered by `generate_sbatch_script` and the number of scheduler
invocations. -/
structure RunnerTrace where
  scriptsRendered : List String
  schedulerCalls : Nat
  deriving Repr, DecidableEq

/-- Embedding of `BacktestRunner.submit` (`runner.py`, lines 89-121): the
years are extracted, the status line printed on line 107 evaluates
`years[0]` and `years[-1]` — on an empty year list Python raises
`IndexError` there, before `generate_sbatch_script` is called and before
`submit_job` runs — then the script is generated and submitted.
`prepare`/`load_data` precede (directory creation, parquet reads) and are
filesystem effects outside the embedding. -/
def runner_submit (c : BacktestConfig) (sched : SchedulerBehavior)
    (dates : List Date) (dry_run : Bool) :
    RunnerTrace × Except RunnerError (Option CompletedProcess) :=
  match get_years dates with
  | [] => ({ scriptsRendered := [], schedulerCalls := 0 }, .error .indexError)
  | y :: ys =>
      let script := generate_sbatch_script c (y :: ys)
      let r := submit_job sched script dry_run
      ({ scriptsRendered := [script], schedulerCalls := r.1.schedulerCalls },
       r.2.mapError .submitFailure)

/-- C10: when the dataset's date column yields no years,
`BacktestRunner.submit` raises (list index out of range) with no script
rendered and no scheduler submission attempted. -/
theorem empty_years_index_error (c : BacktestConfig) (sched : SchedulerBehavior)
    (dates : List Date) (dry : Bool) (h : get_years dates = []) :
    runner_submit c sched dates dry
      = ({ scriptsRendered := [], schedulerCalls := 0 }, .error .indexError) := by
  simp [runner_submit, h]

/-- Witness for C10 at the empty dataset. -/
theorem empty_years_index_error_witness :
    get_years [] = ([] : List Int)
      ∧ runner_submit exampleConfig .notFound [] false
          = ({ scriptsRendered := [], schedulerCalls := 0 }, .error .indexError) :=
  ⟨rfl, empty_years_index_error exampleConfig .notFound [] false rfl⟩

/-- C3: with `dryRun = false`, when the scheduler command exits non-zero
the call fails carrying the scheduler's stderr verbatim; when the command
cannot be located it fails with the invocation error; and on every exit
path (success, scheduler error, invocation failure) the temporary script
file is absent afterwards. -/
theorem submit_failure_surfaces_stderr (script sout serr : String) (code : Nat)
    (h : code ≠ 0) :
    (submit_job (.ran code sout serr) script false).2
        = .error (.calledProcessError code serr)
      ∧ (∀ sched, (submit_job sched script false).1.tempFileRemains = false)
      ∧ (submit_job .notFound script false).2 = .error .fileNotFoundError := by
  refine ⟨by simp [submit_job, h], ?_, rfl⟩
  intro sched
  cases sched with
  | notFound => rfl
  | ran code2 o e =>
      by_cases hc : code2 = 0 <;> simp [submit_job, hc]

/-- Witness for C3 at a concrete failing scheduler run. -/
theorem submit_failure_surfaces_stderr_witness :
    (1 : Nat) ≠ 0
      ∧ ((submit_job (.ran 1 "" "sbatch: error: invalid account") "#!/bin/bash\n" false).2
            = .error (.calledProcessError 1 "sbatch: error: invalid account")
          ∧ (∀ sched, (submit_job sched "#!/bin/bash\n" false).1.tempFileRemains = false)
          ∧ (submit_job .notFound "#!/bin/bash\n" false).2 = .error .fileNotFoundError) :=
  ⟨by decide,
    submit_failure_surfaces_stderr "#!/bin/bash\n" "" "sbatch: error: invalid account" 1
      (by decide)⟩

/-- C4: with `dryRun = true` the scheduler is never invoked (zero
scheduler calls), the preview printed to the caller carries the exact
script text that would have been submitted, and the call returns `None`
without touching the filesystem. -/
theorem dry_run_previews_without_submission (sched : SchedulerBehavior) (script : String) :
    (submit_job sched script true).1.schedulerCalls = 0
      ∧ (submit_job sched script true).1.printed
          = [sepLine, "DRY RUN - Would submit the following script:", sepLine, script, sepLine]
      ∧ script ∈ (submit_job sched script true).1.printed
      ∧ (submit_job sched script true).2 = .ok none
      ∧ (submit_job sched script true).1.tempFileRemains = false := by
  refine ⟨rfl, rfl, ?_, rfl, rfl⟩
  simp [submit_job]

/-- C5: for every config and non-empty partition list of length `N`, the
rendered script contains the job-array directive
`#SBATCH --array=0-(N-1)%maxConcurrent`: it spans indices `0 .. N-1` and
is throttled to `maxConcurrent` concurrent indices. -/
theorem array_directive_spans_partitions (c : BacktestConfig) (years : List Int)
    (h : 0 < years.length) :
    containsSegment (generate_sbatch_script c years)
      ("#SBATCH --array=0-" ++ toString (years.length - 1) ++ "%"
        ++ toString c.slurm.max_concurrent_jobs) := by
  have hrepr : toString ((years.length : Int) - 1) = toString (years.length - 1) := by
    obtain ⟨n, hn⟩ : ∃ n, years.length = n + 1 := ⟨years.length - 1, by omega⟩
    rw [hn]
    have hcast : ((n + 1 : Nat) : Int) - 1 = ((n : Nat) : Int) := by push_cast; ring
    rw [hcast]
    rfl
  refine ⟨"#!/bin/bash\n#SBATCH --job-name=" ++ c.signal_name
      ++ "_backtest\n#SBATCH --output=" ++ c.logs_dir
      ++ "/backtest_%A_%a.out\n#SBATCH --error=" ++ c.logs_dir
      ++ "/backtest_%A_%a.err\n",
    "\n#SBATCH --cpus-per-task=" ++ toString c.slurm.n_cpus
      ++ "\n#SBATCH --mem=" ++ c.slurm.mem
      ++ "\n#SBATCH --time=" ++ c.slurm.time
      ++ "\n#SBATCH --mail-user=" ++ c.byu_email
      ++ "\n#SBATCH --mail-type=" ++ c.slurm.mail_type
      ++ "\n\nexport RAY_ACCEL_ENV_VAR_OVERRIDE_ON_ZERO=0\n\nDATA_PATH=\""
      ++ c.data_path
      ++ "\"\nOUTPUT_DIR=\"" ++ c.output_dir
      ++ "\"\nGAMMA=\"" ++ gammaRepr c.gamma
      ++ "\"\nN_CPUS=\"" ++ toString c.slurm.n_cpus
      ++ "\"\nCONSTRAINTS=\"" ++ joinSpace c.constraints
      ++ "\"\n\n# Years to process\n"
      ++ "years=(" ++ yearsLiteral years ++ ")"
      ++ "\n\nnum_years=$\x7b#years[@]\x7d\n\n"
      ++ taskGuardText
      ++ "\n\nyear=$\x7byears[$SLURM_ARRAY_TASK_ID]\x7d\n\nsource "
      ++ c.project_root
      ++ "/.venv/bin/activate\necho \"Running year=$year\"\nsrun python "
      ++ workerScriptPath
      ++ " \\\n    --data_path \"$DATA_PATH\" \\\n    --gamma \"$GAMMA\" \\\n    --year \"$year\" \\\n    --output_dir \"$OUTPUT_DIR\" \\\n    --n_cpus \"$N_CPUS\" \\\n    --constraints $CONSTRAINTS\n",
    ?_⟩
  rw [← hrepr]
  simp only [generate_sbatch_script, String.append_assoc]

/-- Witness for C5 on three partitions: the directive reads `0-2%1`. -/
theorem array_directive_spans_partitions_witness :
    0 < exampleYears.length
      ∧ containsSegment (generate_sbatch_script exampleConfig exampleYears)
          ("#SBATCH --array=0-" ++ toString (exampleYears.length - 1) ++ "%"
            ++ toString exampleConfig.slurm.max_concurrent_jobs)
      ∧ "#SBATCH --array=0-" ++ toString (exampleYears.length - 1) ++ "%"
          ++ toString exampleConfig.slurm.max_concurrent_jobs
          = "#SBATCH --array=0-2%1" :=
  ⟨by decide,
    array_directive_spans_partitions exampleConfig exampleYears (by decide),
    by decide⟩

/-- C6: the rendered script embeds the literal partition keys in exactly
the order of the (ascending-sorted) partition list, task index `i`
resolves to `Partitions[i]` under the embedded mapping, and rendering the
same inputs again reproduces the identical script (the renderer is a pure
function). -/
theorem task_mapping_order_preserving (c : BacktestConfig) (years : List Int)
    (_hsorted : years.Sorted (· < ·)) :
    containsSegment (generate_sbatch_script c years)
        ("years=(" ++ yearsLiteral years ++ ")")
      ∧ (∀ i (hi : i < years.length), arrayTaskMap years i = some (years.get ⟨i, hi⟩))
      ∧ generate_sbatch_script c years = generate_sbatch_script c years := by
  refine ⟨⟨"#!/bin/bash\n#SBATCH --job-name=" ++ c.signal_name
      ++ "_backtest\n#SBATCH --output=" ++ c.logs_dir
      ++ "/backtest_%A_%a.out\n#SBATCH --error=" ++ c.logs_dir
      ++ "/backtest_%A_%a.err\n"
      ++ "#SBATCH --array=0-" ++ toString ((years.length : Int) - 1) ++ "%"
      ++ toString c.slurm.max_concurrent_jobs
      ++ "\n#SBATCH --cpus-per-task=" ++ toString c.slurm.n_cpus
      ++ "\n#SBATCH --mem=" ++ c.slurm.mem
      ++ "\n#SBATCH --time=" ++ c.slurm.time
      ++ "\n#SBATCH --mail-user=" ++ c.byu_email
      ++ "\n#SBATCH --mail-type=" ++ c.slurm.mail_type
      ++ "\n\nexport RAY_ACCEL_ENV_VAR_OVERRIDE_ON_ZERO=0\n\nDATA_PATH=\""
      ++ c.data_path
      ++ "\"\nOUTPUT_DIR=\"" ++ c.output_dir
      ++ "\"\nGAMMA=\"" ++ gammaRepr c.gamma
      ++ "\"\nN_CPUS=\"" ++ toString c.slurm.n_cpus
      ++ "\"\nCONSTRAINTS=\"" ++ joinSpace c.constraints
      ++ "\"\n\n# Years to process\n",
    "\n\nnum_years=$\x7b#years[@]\x7d\n\n"
      ++ taskGuardText
      ++ "\n\nyear=$\x7byears[$SLURM_ARRAY_TASK_ID]\x7d\n\nsource "
      ++ c.project_root
      ++ "/.venv/bin/activate\necho \"Running year=$year\"\nsrun python "
      ++ workerScriptPath
      ++ " \\\n    --data_path \"$DATA_PATH\" \\\n    --gamma \"$GAMMA\" \\\n    --year \"$year\" \\\n    --output_dir \"$OUTPUT_DIR\" \\\n    --n_cpus \"$N_CPUS\" \\\n    --constraints $CONSTRAINTS\n",
    ?_⟩, ?_, rfl⟩
  · simp only [generate_sbatch_script, String.append_assoc]
  · intro i hi
    exact List.get?_eq_get hi

/-- Witness for C6 at a concrete sorted partition list. -/
theorem task_mapping_order_preserving_witness :
    exampleYears.Sorted (· < ·)
      ∧ (containsSegment (generate_sbatch_script exampleConfig exampleYears)
            ("years=(" ++ yearsLiteral exampleYears ++ ")")
          ∧ (∀ i (hi : i < exampleYears.length),
              arrayTaskMap exampleYears i = some (exampleYears.get ⟨i, hi⟩))
          ∧ generate_sbatch_script exampleConfig exampleYears
              = generate_sbatch_script exampleConfig exampleYears) :=
  ⟨by decide, task_mapping_order_preserving exampleConfig exampleYears (by decide)⟩

/-- C8: the rendered script contains the runtime guard, and under the
script's runtime semantics any scheduler-assigned task index `>= N` exits
with a non-zero status without invoking the worker entrypoint. -/
theorem out_of_range_guard_exits_nonzero (c : BacktestConfig) (years : List Int)
    (t : Nat) (h : years.length ≤ t) :
    containsSegment (generate_sbatch_script c years) taskGuardText
      ∧ (∃ code, code ≠ 0 ∧ runArrayTask years t = .exited code)
      ∧ (∀ y, runArrayTask years t ≠ .workerInvoked y) := by
  refine ⟨⟨"#!/bin/bash\n#SBATCH --job-name=" ++ c.signal_name
      ++ "_backtest\n#SBATCH --output=" ++ c.logs_dir
      ++ "/backtest_%A_%a.out\n#SBATCH --error=" ++ c.logs_dir
      ++ "/backtest_%A_%a.err\n"
      ++ "#SBATCH --array=0-" ++ toString ((years.length : Int) - 1) ++ "%"
      ++ toString c.slurm.max_concurrent_jobs
      ++ "\n#SBATCH --cpus-per-task=" ++ toString c.slurm.n_cpus
      ++ "\n#SBATCH --mem=" ++ c.slurm.mem
      ++ "\n#SBATCH --time=" ++ c.slurm.time
      ++ "\n#SBATCH --mail-user=" ++ c.byu_email
      ++ "\n#SBATCH --mail-type=" ++ c.slurm.mail_type
      ++ "\n\nexport RAY_ACCEL_ENV_VAR_OVERRIDE_ON_ZERO=0\n\nDATA_PATH=\""
      ++ c.data_path
      ++ "\"\nOUTPUT_DIR=\"" ++ c.output_dir
      ++ "\"\nGAMMA=\"" ++ gammaRepr c.gamma
      ++ "\"\nN_CPUS=\"" ++ toString c.slurm.n_cpus
      ++ "\"\nCONSTRAINTS=\"" ++ joinSpace c.constraints
      ++ "\"\n\n# Years to process\n"
      ++ "years=(" ++ yearsLiteral years ++ ")"
      ++ "\n\nnum_years=$\x7b#years[@]\x7d\n\n",
    "\n\nyear=$\x7byears[$SLURM_ARRAY_TASK_ID]\x7d\n\nsource "
      ++ c.project_root
      ++ "/.venv/bin/activate\necho \"Running year=$year\"\nsrun python "
      ++ workerScriptPath
      ++ " \\\n    --data_path \"$DATA_PATH\" \\\n    --gamma \"$GAMMA\" \\\n    --year \"$year\" \\\n    --output_dir \"$OUTPUT_DIR\" \\\n    --n_cpus \"$N_CPUS\" \\\n    --constraints $CONSTRAINTS\n",
    ?_⟩, ⟨1, by decide, ?_⟩, ?_⟩
  · simp only [generate_sbatch_script, String.append_assoc]
  · simp [runArrayTask, h]
  · intro y
    simp [runArrayTask, h]

/-- Witness for C8 at a concrete out-of-range task index. -/
theorem out_of_range_guard_exits_nonzero_witness :
    exampleYears.length ≤ 5
      ∧ (containsSegment (generate_sbatch_script exampleConfig exampleYears) taskGuardText
          ∧ (∃ code, code ≠ 0 ∧ runArrayTask exampleYears 5 = .exited code)
          ∧ (∀ y, runArrayTask exampleYears 5 ≠ .workerInvoked y)) :=
  ⟨by decide, out_of_range_guard_exits_nonzero exampleConfig exampleYears 5 (by decide)⟩

end SfBacktester
